import Mathlib

/-!
# Verification of divvun-runtime developer tooling and bindings

Shallow embedding of the behaviourally relevant parts of the divvun-runtime
repository: the build tooling (`src/build/build.ts`, `src/build/deps.ts`),
the playground frontend components (`TabContent.tsx`, `PipelineOutput`,
`ConfigEditor.tsx`) and the client bindings (Deno, Java, Swift), together
with theorems settling the specification claims about them.
-/

/- ### Shared string utilities -/

/-- JavaScript `String.prototype.includes` / Java `String.contains` /
Swift substring containment: `pat` occurs contiguously inside `s`. -/
def strContains (s pat : String) : Bool := decide (pat.data <:+: s.data)

/- ### Toolchain selection (`src/build/build.ts`, `needsCrossCompile`) -/

/-- The build tool chosen for compilation (`enum BuildTool` in `util.ts`). -/
inductive BuildTool
  | Cargo
  | Cross
  | CargoXwin
  | CargoNdk
deriving DecidableEq, Repr

/-- `needsCrossCompile(host, target?)` from `src/build/build.ts`:
no target → cargo; Android target → cargo-ndk; Windows target from a
non-Windows host → cargo-xwin; Apple-to-Apple or Linux-to-Linux → cargo;
any other host/target mismatch → cross; otherwise cargo. -/
def needsCrossCompile (host : String) (target : Option String) : BuildTool :=
  match target with
  | none => .Cargo
  | some t =>
    if strContains t "android" then .CargoNdk
    else if !strContains host "windows" && strContains t "windows" then .CargoXwin
    else if strContains host "apple" && strContains t "apple" then .Cargo
    else if strContains host "linux" && strContains t "linux" then .Cargo
    else if host != t then .Cross
    else .Cargo

/- ### Playground config-field editor
(`src/playground/src/components/ConfigEditor.tsx`, `renderField`) -/

/-- JavaScript `String.prototype.toLowerCase` (host builtin), modelled as
ASCII-wise lowering of the character sequence. -/
def jsToLower (s : String) : String := String.mk (s.data.map Char.toLower)

/-- JavaScript `String.prototype.trim` (host builtin): strip leading and
trailing whitespace. -/
def jsTrim (s : String) : String :=
  String.mk
    (((s.data.dropWhile Char.isWhitespace).reverse.dropWhile
      Char.isWhitespace).reverse)

/-- Helper for `jsSplitComma`: accumulate the current segment (reversed)
while scanning the character list. -/
def splitCommaAux : List Char → List Char → List (List Char)
  | [], acc => [acc.reverse]
  | c :: rest, acc =>
    if c = ',' then acc.reverse :: splitCommaAux rest []
    else splitCommaAux rest (c :: acc)

/-- JavaScript `text.split(",")` (host builtin): split on every comma;
a string with no comma yields the one-element list `[text]`. -/
def jsSplitComma (s : String) : List String :=
  (splitCommaAux s.data []).map String.mk

/-- Decimal value of a digit-character list (helper for `jsParseInt`). -/
def digitsToNat (l : List Char) : Nat :=
  l.foldl (fun acc c => acc * 10 + (c.toNat - 48)) 0

/-- JavaScript `parseInt` (host builtin) as used by the number widget:
skip leading whitespace, optional sign, then read leading decimal digits;
`none` models `NaN` (no digits found). -/
def jsParseInt (s : String) : Option Int :=
  let t := s.data.dropWhile Char.isWhitespace
  let signedRest : Bool × List Char :=
    match t with
    | '-' :: r => (true, r)
    | '+' :: r => (false, r)
    | r => (false, r)
  let digits := signedRest.2.takeWhile Char.isDigit
  if digits.isEmpty then none
  else
    let n : Int := Int.ofNat (digitsToNat digits)
    some (if signedRest.1 then -n else n)

/-- A JSON-like configuration value as stored by `handleFieldChange`;
`JsonVal.null` is the absent value (`null`). -/
inductive JsonVal
  | null
  | boolean (b : Bool)
  | num (n : Int)
  | str (s : String)
  | arr (xs : List JsonVal)

/-- The widget kind chosen by `renderField` for a config field. -/
inductive FieldWidget
  | vecStringW
  | stringW
  | boolW
  | intW
  | rawW
deriving DecidableEq, Repr

/-- The widget-selection cascade of `renderField` in `ConfigEditor.tsx`:
the lowercased type name is tested for `option<vec<string>>` or
`vec<string>`, then `option<string>` or `string`, then `bool`, then `i32`
or `i64`, else the raw JSON text box. -/
def selectWidget (typeName : String) : FieldWidget :=
  let t := jsToLower typeName
  if strContains t "option<vec<string>>" || strContains t "vec<string>" then
    .vecStringW
  else if strContains t "option<string>" || strContains t "string" then
    .stringW
  else if strContains t "bool" then .boolW
  else if strContains t "i32" || strContains t "i64" then .intW
  else .rawW

/-- The widget precedence exactly as the claim words it: `vec<string>`,
then `string`, then `bool`, then `i32`/`i64`, then the raw fallback
(stated for comparison with `selectWidget`). -/
def claimedWidgetOrder (typeName : String) : FieldWidget :=
  let t := jsToLower typeName
  if strContains t "vec<string>" then .vecStringW
  else if strContains t "string" then .stringW
  else if strContains t "bool" then .boolW
  else if strContains t "i32" || strContains t "i64" then .intW
  else .rawW

/-- One UI edit event: a text-input edit or a checkbox change. -/
inductive UIInput
  | text (s : String)
  | checked (b : Bool)

/-- The per-widget `onInput`/`onChange` handlers of `renderField`:
`some v` means `handleFieldChange` stores `v` (with `JsonVal.null` the
absent value); `none` means no store happens (the raw widget's silent
`catch`), retaining the previous value. `jsonParse` models the host
`JSON.parse`, `none` standing for a thrown parse error. -/
def editField (typeName : String) (jsonParse : String → Option JsonVal)
    (input : UIInput) : Option JsonVal :=
  match selectWidget typeName, input with
  | .vecStringW, .text s =>
    let text := jsTrim s
    let arr :=
      if text.data.isEmpty then [] else (jsSplitComma text).map jsTrim
    some (if arr.length > 0 then JsonVal.arr (arr.map JsonVal.str)
          else JsonVal.null)
  | .stringW, .text s =>
    some (if s.data.isEmpty then JsonVal.null else JsonVal.str s)
  | .boolW, .checked b => some (JsonVal.boolean b)
  | .intW, .text s =>
    match jsParseInt s with
    | none => some JsonVal.null
    | some n => some (JsonVal.num n)
  | .rawW, .text s =>
    match jsonParse s with
    | none => none
    | some v => some v
  | _, _ => none

/- ### Playground pipeline-step event routing
(`src/playground/src/components/TabContent.tsx`, `pipeline-step` listener) -/

/-- One `pipeline-step` push event payload (the fields the frontend
consumes; the listener itself reads only `window_id` and `tab_id` and
appends the whole payload). -/
structure StepEvent where
  window_id : String
  tab_id : String
  execution_id : Nat
  step_index : Nat
  command_key : String
  event_html : String
deriving DecidableEq, Repr

/-- The per-tab client state relevant to the listener: the tab's identity
and its ordered step list. -/
structure TabState where
  windowId : String
  tabId : String
  steps : List StepEvent
deriving DecidableEq, Repr

/-- The `pipeline-step` listener of `TabContent`: append the event to this
tab's step list iff the payload names this tab's window id and tab id;
otherwise ignore it. -/
def handleStepEvent (t : TabState) (e : StepEvent) : TabState :=
  if e.window_id == t.windowId && e.tab_id == t.tabId then
    { t with steps := t.steps ++ [e] }
  else t

/-- The listener's guard condition, as a predicate: the event names this
tab. -/
def matchesTab (t : TabState) (e : StepEvent) : Bool :=
  e.window_id == t.windowId && e.tab_id == t.tabId

/-- Deliver a sequence of push events to one tab, in arrival order. -/
def runTabEvents (t : TabState) (es : List StepEvent) : TabState :=
  es.foldl handleStepEvent t

/- ### Playground step-inspection expansion state
(`src/unnamed/part_003`, `PipelineOutput`) -/

/-- The expansion state of `PipelineOutput`: the `expanded` record
(JS object keyed by step index; a missing key renders as expanded),
the `allExpanded` flag, and the number of steps received. -/
structure OutputState where
  expandedMap : Nat → Option Bool
  allExpanded : Bool
  numSteps : Nat

/-- Initial component state: `useState({})` and `useState(true)`. -/
def initOutputState : OutputState :=
  { expandedMap := fun _ => none, allExpanded := true, numSteps := 0 }

/-- Rendered expansion of step `i`:
`expanded[i] !== undefined ? expanded[i] : true`. -/
def isExpanded (s : OutputState) (i : Nat) : Bool :=
  (s.expandedMap i).getD true

/-- The auto-collapse effect that runs when a new step arrives
(`steps.length` grows, and is then positive): a fresh record maps every
index `i` of the current steps to `i === steps.length - 1`, and
`allExpanded` is set to `false`. -/
def stepArrives (s : OutputState) : OutputState :=
  let n := s.numSteps + 1
  { expandedMap := fun i => if i < n then some (decide (i = n - 1)) else none,
    allExpanded := false,
    numSteps := n }

/-- `toggleStep(index)`: flip `expanded[index]`, with a missing key
treated as `false` by JS `!prev[index]`. -/
def toggleStep (s : OutputState) (i : Nat) : OutputState :=
  { s with
    expandedMap := fun j =>
      if j = i then some (!((s.expandedMap i).getD false))
      else s.expandedMap j }

/-- `toggleAll`: flip `allExpanded` and rebuild a fresh record mapping
every step index to the new flag. -/
def toggleAll (s : OutputState) : OutputState :=
  let newState := !s.allExpanded
  { expandedMap := fun i => if i < s.numSteps then some newState else none,
    allExpanded := newState,
    numSteps := s.numSteps }

/-- Number of steps rendered in the expanded state. -/
def countExpanded (s : OutputState) : Nat :=
  ((List.range s.numSteps).filter (fun i => isExpanded s i)).length

/- ### Dependency setup manager (`src/build/deps.ts`) -/

/-- The pinned dependency table `DEPS`. -/
def DEPS : List (String × String) :=
  [("icu4c", "77.1"), ("pytorch", "2.8.0"), ("protobuf", "33.0"),
   ("libomp", "21.1.4")]

/-- `isWindows(target)` in `deps.ts`. -/
def isWindowsTarget (target : String) : Bool := strContains target "windows"

/-- `isIOS(target)` in `deps.ts`. -/
def isIOSTarget (target : String) : Bool := strContains target "ios"

/-- A parsed per-target manifest: a JSON object mapping dependency name to
installed version, or null where intentionally omitted. -/
abbrev Manifest := List (String × Option String)

/-- `getPlatformDeps(target)`: Windows keeps only icu4c and pytorch
(protobuf and libomp spread-overridden to null); iOS omits libomp;
all other targets need all four (object spreads expanded to their
resulting key/value lists). -/
def getPlatformDeps (target : String) : Manifest :=
  if isWindowsTarget target then
    [("icu4c", some "77.1"), ("pytorch", some "2.8.0"), ("protobuf", none),
     ("libomp", none)]
  else if isIOSTarget target then
    [("icu4c", some "77.1"), ("pytorch", some "2.8.0"),
     ("protobuf", some "33.0"), ("libomp", none)]
  else
    [("icu4c", some "77.1"), ("pytorch", some "2.8.0"),
     ("protobuf", some "33.0"), ("libomp", some "21.1.4")]

/-- `target || getHostTriple()`: the exported deps functions fall back to
the host triple when no target is given. -/
def resolveTarget (host : String) (target : Option String) : String :=
  target.getD host

/-- JavaScript property access `manifest[name]` on a parsed JSON object:
`none` = key absent (undefined), `some none` = null, `some (some v)` =
version string. -/
def manifestLookup (m : Manifest) (name : String) : Option (Option String) :=
  (m.find? (fun p => p.1 == name)).map (·.2)

/-- The file-system and process state the dependency manager touches:
`manifestFiles` maps a target triple to the manifest file at
`.x/sysroot/{target}/manifest.json` (key absent = no file; value `none` =
file present but not valid JSON; `some m` = parses to `m`); `links` is the
ordered list of packages linked into a sysroot; `fetches` counts network
downloads started. -/
structure DepsState where
  manifestFiles : List (String × Option Manifest)
  links : List String
  fetches : Nat
deriving DecidableEq, Repr

/-- Look up a target's manifest file on disk. -/
def fsLookup (files : List (String × Option Manifest)) (target : String) :
    Option (Option Manifest) :=
  (files.find? (fun p => p.1 == target)).map (·.2)

/-- `readManifest(target)`: read the file and `JSON.parse` it inside a
`try`/`catch`; an absent file or a parse failure returns null. -/
def readManifest (target : String) (st : DepsState) : Option Manifest :=
  match fsLookup st.manifestFiles target with
  | none => none
  | some none => none
  | some (some m) => some m

/-- `writeManifest(target, versions)`: overwrite the manifest file with the
serialized version set. -/
def writeManifest (target : String) (versions : Manifest)
    (st : DepsState) : DepsState :=
  { st with
    manifestFiles :=
      (target, some versions) ::
        st.manifestFiles.filter (fun p => p.1 != target) }

/-- Result of `setupDeps`: `exit = some failures` models the non-zero
`Deno.exit(1)` after printing every failed package name and message;
`exit = none` is a successful run. -/
structure SetupResult where
  exit : Option (List (String × String))
  state : DepsState
deriving DecidableEq, Repr

/-- `setupDeps(target?)`: resolve the target, compute its platform deps,
download every non-null package (`Promise.allSettled` — every download
runs to completion; the oracle `dl name = some msg` models a rejected
download with message `msg`, `none` a fulfilled one). If any download
failed, report all failures together and exit non-zero without linking or
writing a manifest; otherwise link each succeeded package into the sysroot
and write the manifest with the exact version set used. -/
def setupDeps (host : String) (target : Option String)
    (dl : String → Option String) (st : DepsState) : SetupResult :=
  let actualTarget := resolveTarget host target
  let platformDeps := getPlatformDeps actualTarget
  let active := platformDeps.filter (fun p => p.2.isSome)
  let afterDownloads : DepsState :=
    { st with fetches := st.fetches + active.length }
  let failed := (active.filter (fun p => (dl p.1).isSome)).map
    (fun p => (p.1, (dl p.1).getD ""))
  if failed.length > 0 then
    { exit := some failed, state := afterDownloads }
  else
    let succeeded :=
      (platformDeps.filter (fun p => p.2.isSome && (dl p.1).isNone)).map (·.1)
    let successfulDeps :=
      platformDeps.filter (fun p => p.2.isNone || succeeded.contains p.1)
    { exit := none,
      state := writeManifest actualTarget successfulDeps
        { afterDownloads with links := afterDownloads.links ++ succeeded } }

/-- `depsExist(target?)`: the manifest parses and records exactly the
currently-required version for every platform dependency
(`manifest[name] !== version` fails the check, including an absent key). -/
def depsExist (host : String) (target : Option String)
    (st : DepsState) : Bool :=
  let actualTarget := resolveTarget host target
  let platformDeps := getPlatformDeps actualTarget
  match readManifest actualTarget st with
  | none => false
  | some manifest =>
    platformDeps.all (fun p => manifestLookup manifest p.1 == some p.2)

/-- `ensureDeps(target?)`: run `setupDeps` only when `depsExist` is false;
otherwise do nothing (in particular, no network fetch). -/
def ensureDeps (host : String) (target : Option String)
    (dl : String → Option String) (st : DepsState) : SetupResult :=
  if depsExist host target st then { exit := none, state := st }
  else setupDeps host target dl st

/- ### Client bindings: error callbacks and resource wrappers
(Deno binding in `src/unnamed/part_006`; Java binding under
`src/bindings/java`; Swift binding in `src/unnamed/part_006`) -/

/-- UTF-8 decoding by the host (`TextDecoder` / `new String(bytes, UTF_8)`),
a host builtin modelled as byte-wise character mapping; the claims depend
only on which bytes are decoded, not on the decoder's internals. -/
def utf8Decode (bytes : List Nat) : String :=
  String.mk (bytes.map Char.ofNat)

/-- The shared `errCallback` `UnsafeCallback` of the Deno binding: a null
message pointer throws `Error("Unknown error")`, otherwise the decoded
message is thrown; the invocation never returns normally. -/
def denoErrCallback (msg : Option (List Nat)) : Except String Unit :=
  match msg with
  | none => .error "Unknown error"
  | some m => .error (utf8Decode m)

/-- `ErrorCallback.DEFAULT` of the Java binding: a null pointer throws
`RuntimeException("Unknown error")`, otherwise the UTF-8-decoded message
is thrown. -/
def javaErrorCallbackDefault (ptr : Option (List Nat)) : Except String Unit :=
  match ptr with
  | none => .error "Unknown error"
  | some bytes => .error (utf8Decode bytes)

/-- The Swift binding's error value. -/
structure DivvunRuntimeError where
  message : String
deriving DecidableEq, Repr

/-- The Swift per-call error callback (as installed by `Bundle.fromPath`,
`Bundle.fromBundle`, `Bundle.create` and `PipelineHandle.forward`): writes
into the `ErrorCapture` cell; a null pointer captures "Unknown error", a
message that decodes captures it, and a message the host decoder `dec`
(`rustSliceToString`) rejects leaves the cell unchanged. -/
def swiftErrorCallback (dec : List Nat → Option String)
    (capture : Option DivvunRuntimeError) (msg : Option (List Nat)) :
    Option DivvunRuntimeError :=
  match msg with
  | some bytes =>
    match dec bytes with
    | some s => some ⟨s⟩
    | none => capture
  | none => some ⟨"Unknown error"⟩

/-- Swift `Bundle.fromPath`: the native call either returns a handle or
nil; `cb = some msg` means the native side invoked the error callback with
message pointer `msg` before returning (the ABI contract pairs a callback
invocation with a nil handle); on a nil handle the captured error — or the
fallback message if nothing was captured — is thrown. -/
def swiftBundleFromPath (dec : List Nat → Option String)
    (nativeHandle : Option Nat) (cb : Option (Option (List Nat))) :
    Except DivvunRuntimeError Nat :=
  let capture : Option DivvunRuntimeError :=
    match cb with
    | none => none
    | some msg => swiftErrorCallback dec none msg
  match nativeHandle with
  | some h => .ok h
  | none => .error (capture.getD ⟨"Failed to load bundle from path"⟩)

/-- The Deno `PipelineResponse`: `#buf` (the slice struct later passed to
`DRT_Vec_drop`), `#ptr` (the data pointer, modelled as the pointed-to
bytes), `#len`; `drops` counts `DRT_Vec_drop` invocations. -/
structure DenoPipelineResponse where
  buf : Option (List Nat)
  ptr : Option (List Nat)
  len : Nat
  drops : Nat
deriving DecidableEq, Repr

/-- Construct the response from a forward call's output slice (the
constructor reads the data pointer and length out of the struct). -/
def mkDenoResponse (data : List Nat) : DenoPipelineResponse :=
  { buf := some data, ptr := some data, len := data.length, drops := 0 }

/-- `[Symbol.dispose]` on the Deno response: drop the native vec if `#buf`
is still set, then clear `#buf`, `#ptr` and `#len`. -/
def denoResponseDispose (r : DenoPipelineResponse) : DenoPipelineResponse :=
  { buf := none, ptr := none, len := 0,
    drops := if r.buf.isSome then r.drops + 1 else r.drops }

/-- `bytes()`: `TypeError("Response has been disposed")` when `#ptr` is
null; otherwise copy the `#len` bytes at `#ptr` and dispose in `finally`. -/
def denoResponseBytes (r : DenoPipelineResponse) :
    Except String (List Nat) × DenoPipelineResponse :=
  match r.ptr with
  | none => (.error "Response has been disposed", r)
  | some data => (.ok (data.take r.len), denoResponseDispose r)

/-- `string()`: like `bytes()` but decoding the bytes as UTF-8 text. -/
def denoResponseString (r : DenoPipelineResponse) :
    Except String String × DenoPipelineResponse :=
  match r.ptr with
  | none => (.error "Response has been disposed", r)
  | some data => (.ok (utf8Decode (data.take r.len)), denoResponseDispose r)

/-- `json()`: `JSON.parse(this.string())`; a parse failure raises after
the response is already disposed. -/
def denoResponseJson (parse : String → Option JsonVal)
    (r : DenoPipelineResponse) :
    Except String JsonVal × DenoPipelineResponse :=
  let res := denoResponseString r
  match res.1 with
  | .error e => (.error e, res.2)
  | .ok s =>
    match parse s with
    | none => (.error "SyntaxError", res.2)
    | some v => (.ok v, res.2)

/-- A value returned by one of the three response accessors. -/
inductive ReadValue
  | bs (data : List Nat)
  | s (text : String)
  | j (v : JsonVal)

/-- Which accessor a caller invokes on a response wrapper. -/
inductive ReadCall
  | bytes
  | text
  | structured
deriving DecidableEq, Repr

/-- Dispatch one accessor call on the Deno response. -/
def denoResponseRead (parse : String → Option JsonVal) (c : ReadCall)
    (r : DenoPipelineResponse) :
    Except String ReadValue × DenoPipelineResponse :=
  match c with
  | .bytes =>
    ((denoResponseBytes r).1.map .bs, (denoResponseBytes r).2)
  | .text =>
    ((denoResponseString r).1.map .s, (denoResponseString r).2)
  | .structured =>
    ((denoResponseJson parse r).1.map .j, (denoResponseJson parse r).2)

/-- The Java `PipelineResponse`: the `RustSlice` field, the `disposed`
flag, and a count of `DRT_Vec_drop` invocations. -/
structure JavaPipelineResponse where
  slice : Option (List Nat)
  disposed : Bool
  drops : Nat
deriving DecidableEq, Repr

/-- `new PipelineResponse(slice)`. -/
def mkJavaResponse (data : List Nat) : JavaPipelineResponse :=
  { slice := some data, disposed := false, drops := 0 }

/-- `close()`: drop the native vec and clear the slice only when not
already disposed and a slice is present. -/
def javaResponseClose (r : JavaPipelineResponse) : JavaPipelineResponse :=
  if !r.disposed && r.slice.isSome then
    { slice := none, disposed := true, drops := r.drops + 1 }
  else r

/-- `bytes()`: `IllegalStateException("Response has been disposed")` when
disposed; otherwise return the slice's byte array and `close()` in
`finally` (a null slice while not disposed would raise; unreachable from
the constructor). -/
def javaResponseBytes (r : JavaPipelineResponse) :
    Except String (List Nat) × JavaPipelineResponse :=
  if r.disposed then (.error "Response has been disposed", r)
  else
    match r.slice with
    | some data => (.ok data, javaResponseClose r)
    | none => (.error "NullPointerException", javaResponseClose r)

/-- `string()`: like `bytes()` but decoding as UTF-8. -/
def javaResponseString (r : JavaPipelineResponse) :
    Except String String × JavaPipelineResponse :=
  if r.disposed then (.error "Response has been disposed", r)
  else
    match r.slice with
    | some data => (.ok (utf8Decode data), javaResponseClose r)
    | none => (.error "NullPointerException", javaResponseClose r)

/-- `json()`: `string()` then Jackson parsing; a parse failure throws a
RuntimeException after the response is already disposed. -/
def javaResponseJson (parse : String → Option JsonVal)
    (r : JavaPipelineResponse) :
    Except String JsonVal × JavaPipelineResponse :=
  let res := javaResponseString r
  match res.1 with
  | .error e => (.error e, res.2)
  | .ok s =>
    match parse s with
    | none => (.error "Failed to parse JSON response", res.2)
    | some v => (.ok v, res.2)

/-- Dispatch one accessor call on the Java response. -/
def javaResponseRead (parse : String → Option JsonVal) (c : ReadCall)
    (r : JavaPipelineResponse) :
    Except String ReadValue × JavaPipelineResponse :=
  match c with
  | .bytes =>
    ((javaResponseBytes r).1.map .bs, (javaResponseBytes r).2)
  | .text =>
    ((javaResponseString r).1.map .s, (javaResponseString r).2)
  | .structured =>
    ((javaResponseJson parse r).1.map .j, (javaResponseJson parse r).2)

/-- The Deno `Bundle` wrapper: the `#ptr` handle and a count of
`DRT_Bundle_drop` invocations. -/
structure DenoBundle where
  ptr : Option Nat
  drops : Nat
deriving DecidableEq, Repr

/-- A `Bundle` as produced by `fromPath`/`fromBundle` holding handle `h`. -/
def mkDenoBundle (h : Nat) : DenoBundle := { ptr := some h, drops := 0 }

/-- `[Symbol.dispose]` on the Deno bundle: drop only when `#ptr` is set,
then clear it. -/
def denoBundleDispose (b : DenoBundle) : DenoBundle :=
  if b.ptr.isSome then { ptr := none, drops := b.drops + 1 } else b

/-- `Bundle.create(config)`: throws when disposed; otherwise the native
call runs and its outcome `res` (a pipeline pointer, or the error thrown
through the error callback) is returned. -/
def denoBundleCreate (b : DenoBundle) (res : Except String Nat) :
    Except String Nat :=
  if b.ptr.isNone then .error "Bundle has been disposed"
  else res

/-- The Deno `PipelineHandle` wrapper: `#ptr` and a count of
`DRT_PipelineHandle_drop` invocations. -/
structure DenoPipelineHandle where
  ptr : Option Nat
  drops : Nat
deriving DecidableEq, Repr

/-- A `PipelineHandle` holding handle `h`. -/
def mkDenoPipelineHandle (h : Nat) : DenoPipelineHandle :=
  { ptr := some h, drops := 0 }

/-- `[Symbol.dispose]` on the Deno pipeline handle. -/
def denoPipelineDispose (p : DenoPipelineHandle) : DenoPipelineHandle :=
  if p.ptr.isSome then { ptr := none, drops := p.drops + 1 } else p

/-- `PipelineHandle.forward(input)`: throws when disposed; otherwise the
native call's outcome `res` is wrapped into a fresh response. -/
def denoPipelineForward (p : DenoPipelineHandle)
    (res : Except String (List Nat)) : Except String DenoPipelineResponse :=
  if p.ptr.isNone then .error "Pipeline has been disposed"
  else res.map mkDenoResponse

/-- The Java `Bundle` wrapper (`src/unnamed/part_008`): the native
pointer, the `disposed` flag and a count of `DRT_Bundle_drop`
invocations. -/
structure JavaBundle where
  ptr : Option Nat
  disposed : Bool
  drops : Nat
deriving DecidableEq, Repr

/-- A Java `Bundle` holding pointer `h`, as returned by
`fromPath`/`fromBundle` (the private constructor stores the non-null
native pointer). -/
def mkJavaBundle (h : Nat) : JavaBundle :=
  { ptr := some h, disposed := false, drops := 0 }

/-- `close()` on the Java bundle: drop only when not already disposed and
the pointer is set, then set the flag and clear the pointer. -/
def javaBundleClose (b : JavaBundle) : JavaBundle :=
  if !b.disposed && b.ptr.isSome then
    { ptr := none, disposed := true, drops := b.drops + 1 }
  else b

/-- `create(config)` on the Java bundle:
`IllegalStateException("Bundle has been disposed")` when disposed or the
pointer is null; otherwise the native call runs — its outcome `res` is a
pipeline pointer (possibly null) or an error thrown through the error
callback — and the `catch` block rethrows any failure, including the
null-pointer creation failure raised inside the `try`, with a prefixed
message. -/
def javaBundleCreate (b : JavaBundle) (res : Except String (Option Nat)) :
    Except String Nat :=
  if b.disposed || b.ptr.isNone then .error "Bundle has been disposed"
  else
    match res with
    | .error m => .error ("Pipeline creation failed: " ++ m)
    | .ok none =>
      .error ("Pipeline creation failed: " ++
        "Failed to create pipeline handle")
    | .ok (some p) => .ok p

/-- The Java `PipelineHandle`: the native pointer, the `disposed` flag and
a count of `DRT_PipelineHandle_drop` invocations. -/
structure JavaPipelineHandle where
  ptr : Option Nat
  disposed : Bool
  drops : Nat
deriving DecidableEq, Repr

/-- A Java `PipelineHandle` holding pointer `h`. -/
def mkJavaPipelineHandle (h : Nat) : JavaPipelineHandle :=
  { ptr := some h, disposed := false, drops := 0 }

/-- `close()` on the Java pipeline handle: drop only when not already
disposed and the pointer is set. -/
def javaPipelineClose (p : JavaPipelineHandle) : JavaPipelineHandle :=
  if !p.disposed && p.ptr.isSome then
    { ptr := none, disposed := true, drops := p.drops + 1 }
  else p

/-- `forward(input)` on the Java pipeline handle:
`IllegalStateException("Pipeline has been disposed")` when disposed or the
pointer is null; otherwise the native outcome `res` is wrapped into a
fresh response, native failures rethrown with a prefixed message. -/
def javaPipelineForward (p : JavaPipelineHandle)
    (res : Except String (List Nat)) : Except String JavaPipelineResponse :=
  if p.disposed || p.ptr.isNone then .error "Pipeline has been disposed"
  else (res.mapError (fun m => "Pipeline processing failed: " ++ m)).map
    mkJavaResponse

/- ### Theorems -/

/-- Substring containment is transitive (helper for the widget cascade). -/
theorem strContains_trans (s a b : String) (hab : strContains a b = true)
    (hsa : strContains s a = true) : strContains s b = true :=
  decide_eq_true ((of_decide_eq_true hab).trans (of_decide_eq_true hsa))

/-- A string containing `option<vec<string>>` also contains `vec<string>`,
so the first `renderField` test collapses to the plain `vec<string>` test. -/
theorem contains_optVecString_collapse (t : String) :
    (strContains t "option<vec<string>>" || strContains t "vec<string>") =
      strContains t "vec<string>" := by
  cases hv : strContains t "vec<string>" with
  | true => simp
  | false =>
    cases ho : strContains t "option<vec<string>>" with
    | false => simp
    | true =>
      have h := strContains_trans t "option<vec<string>>" "vec<string>"
        (by decide) ho
      rw [h] at hv
      exact absurd hv (by simp)

/-- A string containing `option<string>` also contains `string`, so the
second `renderField` test collapses to the plain `string` test. -/
theorem contains_optString_collapse (t : String) :
    (strContains t "option<string>" || strContains t "string") =
      strContains t "string" := by
  cases hv : strContains t "string" with
  | true => simp
  | false =>
    cases ho : strContains t "option<string>" with
    | false => simp
    | true =>
      have h := strContains_trans t "option<string>" "string" (by decide) ho
      rw [h] at hv
      exact absurd hv (by simp)

/-- `renderField`'s widget cascade equals the precedence order stated in
the claim. -/
theorem selectWidget_eq_claimed (t : String) :
    selectWidget t = claimedWidgetOrder t := by
  simp only [selectWidget, claimedWidgetOrder,
    contains_optVecString_collapse, contains_optString_collapse]

/-- C4 counterexample: the claim states `select(T, T)` yields the default
(non-cross) tool for every triple `T`, but for the Android triple
`aarch64-linux-android` the code tests `target.includes("android")` before
comparing host and target, so `select(T, T)` yields the mobile/NDK tool. -/
theorem C4_select_androidSelf_not_default :
    needsCrossCompile "aarch64-linux-android" (some "aarch64-linux-android") =
      BuildTool.CargoNdk ∧
    BuildTool.CargoNdk ≠ BuildTool.Cargo := by
  constructor
  · rfl
  · decide

/-- C4 (amended): toolchain selection is a pure function of
(host, optional target) with `select("aarch64-apple-darwin",
"x86_64-apple-darwin")` the default tool, `select("x86_64-unknown-linux-gnu",
"x86_64-pc-windows-msvc")` the Windows-cross tool,
`select("x86_64-unknown-linux-gnu", "aarch64-linux-android")` the mobile/NDK
tool; `select(T, absent)` is the default tool for every triple `T`; and
`select(T, T)` is the default tool for every triple `T` that does not
contain `android`, while for Android triples `select(T, T)` is the
mobile/NDK tool. -/
theorem C4_select_amended (T : String) (hT : strContains T "android" = false) :
    needsCrossCompile "aarch64-apple-darwin" (some "x86_64-apple-darwin") =
      BuildTool.Cargo ∧
    needsCrossCompile "x86_64-unknown-linux-gnu" (some "x86_64-pc-windows-msvc") =
      BuildTool.CargoXwin ∧
    needsCrossCompile "x86_64-unknown-linux-gnu" (some "aarch64-linux-android") =
      BuildTool.CargoNdk ∧
    needsCrossCompile T (some T) = BuildTool.Cargo ∧
    (∀ S : String, needsCrossCompile S none = BuildTool.Cargo) ∧
    (∀ S : String, strContains S "android" = true →
      needsCrossCompile S (some S) = BuildTool.CargoNdk) := by
  refine ⟨rfl, rfl, rfl, ?_, fun S => rfl, fun S hS => by simp [needsCrossCompile, hS]⟩
  simp only [needsCrossCompile, hT]
  cases hw : strContains T "windows" <;>
    cases ha : strContains T "apple" <;>
      cases hl : strContains T "linux" <;>
        simp [hw, ha, hl]

/-- C4 witness: the amended selection theorem applied at the concrete
triple `x86_64-unknown-linux-gnu`. -/
theorem C4_select_amended_witness :
    needsCrossCompile "x86_64-unknown-linux-gnu"
      (some "x86_64-unknown-linux-gnu") = BuildTool.Cargo :=
  (C4_select_amended "x86_64-unknown-linux-gnu" (by decide)).2.2.2.1

/-- C8: the config-field editor selects its widget by substring-matching
the lowercased type name in the precedence order `vec<string>`, `string`,
`bool`, `i32`/`i64`, raw fallback; an empty edit to a `vec<string>` field
stores the absent value (not an empty list); an empty edit to a `string`
field stores the absent value (not an empty string); an unparseable number
edit stores the absent value; and the raw fallback silently ignores
unparseable edits, retaining the last valid value. -/
theorem C8_configEditor (t u : String) (parse : String → Option JsonVal)
    (hnum : jsParseInt u = none) (hraw : parse u = none) :
    selectWidget t = claimedWidgetOrder t ∧
    (selectWidget t = .vecStringW →
      editField t parse (.text "") = some JsonVal.null) ∧
    (selectWidget t = .stringW →
      editField t parse (.text "") = some JsonVal.null) ∧
    (selectWidget t = .intW →
      editField t parse (.text u) = some JsonVal.null) ∧
    (selectWidget t = .rawW → editField t parse (.text u) = none) := by
  refine ⟨selectWidget_eq_claimed t, ?_, ?_, ?_, ?_⟩ <;> intro h <;>
    simp only [editField, h, hnum, hraw] <;> rfl

/-- C8 witness: the editor theorem applied at the field type
`Option<Vec<String>>`, the unparseable numeric/raw input `"abc"`, and a
parse oracle that always fails. -/
theorem C8_configEditor_witness :
    selectWidget "Option<Vec<String>>" = claimedWidgetOrder "Option<Vec<String>>" ∧
    (selectWidget "Option<Vec<String>>" = .vecStringW →
      editField "Option<Vec<String>>" (fun _ => none) (.text "") =
        some JsonVal.null) ∧
    (selectWidget "Option<Vec<String>>" = .stringW →
      editField "Option<Vec<String>>" (fun _ => none) (.text "") =
        some JsonVal.null) ∧
    (selectWidget "Option<Vec<String>>" = .intW →
      editField "Option<Vec<String>>" (fun _ => none) (.text "abc") =
        some JsonVal.null) ∧
    (selectWidget "Option<Vec<String>>" = .rawW →
      editField "Option<Vec<String>>" (fun _ => none) (.text "abc") = none) :=
  C8_configEditor "Option<Vec<String>>" "abc" (fun _ => none) (by decide) rfl

/-- The listener never changes a tab's identity. -/
theorem matchesTab_handleStepEvent (t : TabState) (e e' : StepEvent) :
    matchesTab (handleStepEvent t e) e' = matchesTab t e' := by
  unfold matchesTab handleStepEvent
  split <;> rfl

/-- After delivering any event sequence, a tab's step list is its previous
list followed by exactly the events naming that tab, in arrival order. -/
theorem runTabEvents_steps (t : TabState) (es : List StepEvent) :
    (runTabEvents t es).steps = t.steps ++ es.filter (matchesTab t) := by
  induction es generalizing t with
  | nil => simp [runTabEvents]
  | cons e rest ih =>
    have hmain := ih (handleStepEvent t e)
    simp only [runTabEvents, List.foldl_cons] at hmain ⊢
    rw [hmain]
    have hfilter : rest.filter (matchesTab (handleStepEvent t e)) =
        rest.filter (matchesTab t) :=
      List.filter_congr fun x _ => matchesTab_handleStepEvent t e x
    rw [hfilter, List.filter_cons]
    cases hc : matchesTab t e with
    | true =>
      have hh : handleStepEvent t e = { t with steps := t.steps ++ [e] } := by
        unfold handleStepEvent
        unfold matchesTab at hc
        rw [if_pos hc]
      rw [hh]
      simp
    | false =>
      have hh : handleStepEvent t e = t := by
        unfold handleStepEvent
        unfold matchesTab at hc
        rw [if_neg (by simp [hc])]
      rw [hh]
      simp

/-- C7: every pipeline-step event is appended to exactly the tab whose
window id and tab id it names and is ignored by all other tabs: for two
tabs `A` and `B` with different identities, after any interleaving of
event arrivals each tab's step list is its initial list plus exactly the
events naming it, and an event naming `A` never appears in `B`'s list. -/
theorem C7_stepEvent_routing (A B : TabState) (es : List StepEvent)
    (e : StepEvent) (hA : matchesTab A e = true)
    (hdiff : B.windowId ≠ A.windowId ∨ B.tabId ≠ A.tabId)
    (hB : e ∉ B.steps) :
    (runTabEvents A es).steps = A.steps ++ es.filter (matchesTab A) ∧
    (runTabEvents B es).steps = B.steps ++ es.filter (matchesTab B) ∧
    e ∉ (runTabEvents B es).steps := by
  refine ⟨runTabEvents_steps A es, runTabEvents_steps B es, ?_⟩
  rw [runTabEvents_steps]
  have hBe : matchesTab B e = false := by
    cases hm : matchesTab B e with
    | false => rfl
    | true =>
      unfold matchesTab at hA hm
      rw [Bool.and_eq_true, beq_iff_eq, beq_iff_eq] at hA hm
      rcases hdiff with hd | hd
      · exact absurd (hm.1.symm.trans hA.1) hd
      · exact absurd (hm.2.symm.trans hA.2) hd
  intro hmem
  rcases List.mem_append.mp hmem with hmem | hmem
  · exact hB hmem
  · have := (List.mem_filter.mp hmem).2
    rw [hBe] at this
    exact Bool.noConfusion this

/-- C7 witness: the routing theorem at two concrete tabs of one window and
a concrete event naming the first tab. -/
theorem C7_stepEvent_routing_witness :
    (runTabEvents ⟨"w1", "t1", []⟩
        [⟨"w1", "t1", 0, 0, "cg3", "<p>x</p>"⟩]).steps =
      [] ++ ([⟨"w1", "t1", 0, 0, "cg3", "<p>x</p>"⟩].filter
        (matchesTab ⟨"w1", "t1", []⟩)) ∧
    (runTabEvents ⟨"w1", "t2", []⟩
        [⟨"w1", "t1", 0, 0, "cg3", "<p>x</p>"⟩]).steps =
      [] ++ ([⟨"w1", "t1", 0, 0, "cg3", "<p>x</p>"⟩].filter
        (matchesTab ⟨"w1", "t2", []⟩)) ∧
    (⟨"w1", "t1", 0, 0, "cg3", "<p>x</p>"⟩ : StepEvent) ∉
      (runTabEvents ⟨"w1", "t2", []⟩
        [⟨"w1", "t1", 0, 0, "cg3", "<p>x</p>"⟩]).steps :=
  C7_stepEvent_routing ⟨"w1", "t1", []⟩ ⟨"w1", "t2", []⟩
    [⟨"w1", "t1", 0, 0, "cg3", "<p>x</p>"⟩]
    ⟨"w1", "t1", 0, 0, "cg3", "<p>x</p>"⟩
    (by decide) (by decide) (by decide)

/-- C9: after a pipeline-step event arrives for a tab, exactly one of its
`N` steps — the most recent, index `N − 1` — renders expanded and the
other `N − 1` render collapsed; after the "expand all" control is then
toggled, all `N` steps render expanded. -/
theorem C9_stepExpansion (s : OutputState) (i : Nat)
    (hi : i < (stepArrives s).numSteps) :
    countExpanded (stepArrives s) = 1 ∧
    (isExpanded (stepArrives s) i = true ↔
      i = (stepArrives s).numSteps - 1) ∧
    countExpanded (toggleAll (stepArrives s)) = (stepArrives s).numSteps ∧
    isExpanded (toggleAll (stepArrives s)) i = true := by
  have hn : (stepArrives s).numSteps = s.numSteps + 1 := rfl
  refine ⟨?_, ?_, ?_, ?_⟩
  · unfold countExpanded
    have hcong : ((List.range (stepArrives s).numSteps).filter
          (fun j => isExpanded (stepArrives s) j)) =
        ((List.range (stepArrives s).numSteps).filter
          (fun j => decide (j = s.numSteps))) := by
      refine List.filter_congr fun j hj => ?_
      rw [List.mem_range, hn] at hj
      show isExpanded (stepArrives s) j = decide (j = s.numSteps)
      simp only [isExpanded, stepArrives]
      rw [if_pos hj]
      simp
    rw [hcong, hn, List.range_succ, List.filter_append]
    have h1 : (List.range s.numSteps).filter
        (fun j => decide (j = s.numSteps)) = [] := by
      refine List.filter_eq_nil_iff.mpr fun a ha => ?_
      rw [List.mem_range] at ha
      simp
      omega
    rw [h1]
    simp
  · rw [hn] at hi ⊢
    simp only [isExpanded, stepArrives]
    rw [if_pos hi]
    simp
  · unfold countExpanded
    have hall : ∀ j, j ∈ List.range (toggleAll (stepArrives s)).numSteps →
        isExpanded (toggleAll (stepArrives s)) j = true := by
      intro j hj
      rw [List.mem_range] at hj
      simp only [isExpanded, toggleAll, stepArrives] at hj ⊢
      rw [if_pos hj]
      rfl
    rw [List.filter_eq_self.mpr hall, List.length_range]
    rfl
  · simp only [isExpanded, toggleAll, stepArrives] at hi ⊢
    rw [if_pos hi]
    rfl

/-- C9 witness: the expansion theorem at the concrete state obtained from
the initial component state by one step arrival, inspecting index 0. -/
theorem C9_stepExpansion_witness :
    countExpanded (stepArrives initOutputState) = 1 ∧
    (isExpanded (stepArrives initOutputState) 0 = true ↔
      0 = (stepArrives initOutputState).numSteps - 1) ∧
    countExpanded (toggleAll (stepArrives initOutputState)) =
      (stepArrives initOutputState).numSteps ∧
    isExpanded (toggleAll (stepArrives initOutputState)) 0 = true :=
  C9_stepExpansion initOutputState 0 (by decide)

/-- A manifest recording exactly the platform-required set satisfies the
`depsExist` per-dependency version check (helper). -/
theorem getPlatformDeps_self_all (t : String) :
    (getPlatformDeps t).all
      (fun p => manifestLookup (getPlatformDeps t) p.1 == some p.2) = true := by
  unfold getPlatformDeps
  split
  · decide
  · split
    · decide
    · decide

/-- C5: after one successful `setupDeps(target)`, the written manifest
equals the platform-required version set for that target, `depsExist`
holds, and a subsequent `ensureDeps` returns the state unchanged — it
skips setup entirely, regardless of the download oracle, performing zero
network fetches. -/
theorem C5_deps_idempotent (host : String) (target : Option String)
    (dl dl' : String → Option String) (st : DepsState)
    (hok : (setupDeps host target dl st).exit = none) :
    readManifest (resolveTarget host target)
        (setupDeps host target dl st).state =
      some (getPlatformDeps (resolveTarget host target)) ∧
    depsExist host target (setupDeps host target dl st).state = true ∧
    ensureDeps host target dl' (setupDeps host target dl st).state =
      { exit := none, state := (setupDeps host target dl st).state } ∧
    (ensureDeps host target dl'
        (setupDeps host target dl st).state).state.fetches =
      (setupDeps host target dl st).state.fetches := by
  simp only [setupDeps] at hok ⊢
  split at hok
  · exact absurd hok (by simp)
  · next hc =>
    rw [if_neg hc] at *
    have hnofail : ∀ p ∈ (getPlatformDeps (resolveTarget host target)).filter
        (fun q => q.2.isSome), (dl p.1).isSome = false := by
      intro p hp
      by_contra hno
      have hsome : (dl p.1).isSome = true := by
        cases hd : dl p.1 <;> simp [hd] at hno ⊢
      exact hc (by
        rw [List.length_map]
        exact List.length_pos.mpr
          (List.ne_nil_of_mem (List.mem_filter.mpr ⟨hp, hsome⟩)))
    have hsucc : (getPlatformDeps (resolveTarget host target)).filter
        (fun p => p.2.isNone ||
          (((getPlatformDeps (resolveTarget host target)).filter
            (fun q => q.2.isSome && (dl q.1).isNone)).map (·.1)).contains p.1) =
        getPlatformDeps (resolveTarget host target) := by
      refine List.filter_eq_self.mpr fun p hp => ?_
      cases hn : p.2.isNone with
      | true => simp
      | false =>
        have hs : p.2.isSome = true := by
          cases h2 : p.2 <;> simp [h2] at hn ⊢
        have hdl : (dl p.1).isNone = true := by
          have hns := hnofail p (List.mem_filter.mpr ⟨hp, hs⟩)
          cases hd : dl p.1 <;> simp [hd] at hns ⊢
        have hmem : p.1 ∈ ((getPlatformDeps (resolveTarget host target)).filter
            (fun q => q.2.isSome && (dl q.1).isNone)).map (·.1) :=
          List.mem_map.mpr
            ⟨p, List.mem_filter.mpr ⟨hp, by rw [hs, hdl]; rfl⟩, rfl⟩
        simp [hmem]
    rw [hsucc]
    have hread : readManifest (resolveTarget host target)
        (writeManifest (resolveTarget host target)
          (getPlatformDeps (resolveTarget host target))
          { st with
            links := st.links ++
              (((getPlatformDeps (resolveTarget host target)).filter
                (fun q => q.2.isSome && (dl q.1).isNone)).map (·.1)),
            fetches := st.fetches +
              ((getPlatformDeps (resolveTarget host target)).filter
                (fun q => q.2.isSome)).length }) =
        some (getPlatformDeps (resolveTarget host target)) := by
      simp [readManifest, fsLookup, writeManifest]
    have hexist : depsExist host target
        (writeManifest (resolveTarget host target)
          (getPlatformDeps (resolveTarget host target))
          { st with
            links := st.links ++
              (((getPlatformDeps (resolveTarget host target)).filter
                (fun q => q.2.isSome && (dl q.1).isNone)).map (·.1)),
            fetches := st.fetches +
              ((getPlatformDeps (resolveTarget host target)).filter
                (fun q => q.2.isSome)).length }) = true := by
      simp only [depsExist]
      rw [hread]
      exact getPlatformDeps_self_all (resolveTarget host target)
    refine ⟨hread, hexist, ?_, ?_⟩ <;>
      · unfold ensureDeps
        rw [if_pos hexist]

/-- C5 witness: the idempotence theorem at the host triple
`x86_64-unknown-linux-gnu` with all downloads fulfilled, from the empty
file-system state. -/
theorem C5_deps_idempotent_witness :
    readManifest (resolveTarget "x86_64-unknown-linux-gnu" none)
        (setupDeps "x86_64-unknown-linux-gnu" none (fun _ => none)
          ⟨[], [], 0⟩).state =
      some (getPlatformDeps (resolveTarget "x86_64-unknown-linux-gnu" none)) ∧
    depsExist "x86_64-unknown-linux-gnu" none
      (setupDeps "x86_64-unknown-linux-gnu" none (fun _ => none)
        ⟨[], [], 0⟩).state = true ∧
    ensureDeps "x86_64-unknown-linux-gnu" none (fun _ => none)
        (setupDeps "x86_64-unknown-linux-gnu" none (fun _ => none)
          ⟨[], [], 0⟩).state =
      { exit := none,
        state := (setupDeps "x86_64-unknown-linux-gnu" none (fun _ => none)
          ⟨[], [], 0⟩).state } ∧
    (ensureDeps "x86_64-unknown-linux-gnu" none (fun _ => none)
        (setupDeps "x86_64-unknown-linux-gnu" none (fun _ => none)
          ⟨[], [], 0⟩).state).state.fetches =
      (setupDeps "x86_64-unknown-linux-gnu" none (fun _ => none)
        ⟨[], [], 0⟩).state.fetches :=
  C5_deps_idempotent "x86_64-unknown-linux-gnu" none (fun _ => none)
    (fun _ => none) ⟨[], [], 0⟩ (by decide)

/-- C6: if any package download fails, `setupDeps` exits non-zero
reporting every failed package's name and message together, every sibling
download still runs to completion (all-settled join), and neither linking
nor a manifest write — not even a partial one — takes place. -/
theorem C6_download_failure_aggregation (host : String)
    (target : Option String) (dl : String → Option String) (st : DepsState)
    (p : String × Option String)
    (hp : p ∈ getPlatformDeps (resolveTarget host target))
    (hactive : p.2.isSome = true) (hfail : (dl p.1).isSome = true) :
    (setupDeps host target dl st).exit =
      some ((((getPlatformDeps (resolveTarget host target)).filter
          (fun q => q.2.isSome)).filter (fun q => (dl q.1).isSome)).map
        (fun q => (q.1, (dl q.1).getD ""))) ∧
    (setupDeps host target dl st).state.manifestFiles = st.manifestFiles ∧
    (setupDeps host target dl st).state.links = st.links ∧
    (setupDeps host target dl st).state.fetches =
      st.fetches + ((getPlatformDeps (resolveTarget host target)).filter
        (fun q => q.2.isSome)).length := by
  have hmem : p ∈ ((getPlatformDeps (resolveTarget host target)).filter
      (fun q => q.2.isSome)).filter (fun q => (dl q.1).isSome) :=
    List.mem_filter.mpr ⟨List.mem_filter.mpr ⟨hp, hactive⟩, hfail⟩
  have hlen : 0 < ((((getPlatformDeps (resolveTarget host target)).filter
      (fun q => q.2.isSome)).filter (fun q => (dl q.1).isSome)).map
        (fun q => (q.1, (dl q.1).getD ""))).length := by
    rw [List.length_map]
    exact List.length_pos.mpr (List.ne_nil_of_mem hmem)
  simp only [setupDeps]
  rw [if_pos hlen]
  exact ⟨rfl, rfl, rfl, rfl⟩

/-- C6 witness: the aggregation theorem at the host triple
`x86_64-unknown-linux-gnu` with an oracle failing every download. -/
theorem C6_download_failure_aggregation_witness :
    (setupDeps "x86_64-unknown-linux-gnu" none (fun _ => some "404")
        ⟨[], [], 0⟩).exit =
      some ((((getPlatformDeps
            (resolveTarget "x86_64-unknown-linux-gnu" none)).filter
          (fun q => q.2.isSome)).filter
            (fun q => ((fun _ => some "404") q.1 : Option String).isSome)).map
        (fun q => (q.1, ((fun _ => some "404") q.1 : Option String).getD ""))) ∧
    (setupDeps "x86_64-unknown-linux-gnu" none (fun _ => some "404")
        ⟨[], [], 0⟩).state.manifestFiles = ([] : List (String × Option Manifest)) ∧
    (setupDeps "x86_64-unknown-linux-gnu" none (fun _ => some "404")
        ⟨[], [], 0⟩).state.links = ([] : List String) ∧
    (setupDeps "x86_64-unknown-linux-gnu" none (fun _ => some "404")
        ⟨[], [], 0⟩).state.fetches =
      0 + ((getPlatformDeps
          (resolveTarget "x86_64-unknown-linux-gnu" none)).filter
        (fun q => q.2.isSome)).length :=
  C6_download_failure_aggregation "x86_64-unknown-linux-gnu" none
    (fun _ => some "404") ⟨[], [], 0⟩ ("icu4c", some "77.1")
    (by decide) (by decide) (by decide)

/-- C10: when the per-target manifest file is absent or fails to parse,
`readManifest` returns null instead of raising, `depsExist` is false, and
`ensureDeps` performs the full dependency setup. -/
theorem C10_manifest_unreadable (host : String) (target : Option String)
    (dl : String → Option String) (st : DepsState)
    (h : fsLookup st.manifestFiles (resolveTarget host target) = none ∨
      fsLookup st.manifestFiles (resolveTarget host target) = some none) :
    readManifest (resolveTarget host target) st = none ∧
    depsExist host target st = false ∧
    ensureDeps host target dl st = setupDeps host target dl st := by
  have hread : readManifest (resolveTarget host target) st = none := by
    rcases h with h | h <;> simp [readManifest, h]
  have hexist : depsExist host target st = false := by
    simp only [depsExist]
    rw [hread]
  refine ⟨hread, hexist, ?_⟩
  unfold ensureDeps
  rw [if_neg (by simp [hexist])]

/-- C10 witness: the unreadable-manifest theorem at a state whose manifest
file for the host triple exists but does not parse as JSON. -/
theorem C10_manifest_unreadable_witness :
    readManifest (resolveTarget "x86_64-unknown-linux-gnu" none)
      ⟨[("x86_64-unknown-linux-gnu", none)], [], 0⟩ = none ∧
    depsExist "x86_64-unknown-linux-gnu" none
      ⟨[("x86_64-unknown-linux-gnu", none)], [], 0⟩ = false ∧
    ensureDeps "x86_64-unknown-linux-gnu" none (fun _ => none)
        ⟨[("x86_64-unknown-linux-gnu", none)], [], 0⟩ =
      setupDeps "x86_64-unknown-linux-gnu" none (fun _ => none)
        ⟨[("x86_64-unknown-linux-gnu", none)], [], 0⟩ :=
  C10_manifest_unreadable "x86_64-unknown-linux-gnu" none (fun _ => none)
    ⟨[("x86_64-unknown-linux-gnu", none)], [], 0⟩ (Or.inr (by decide))

/-- `string()` on a fresh Deno response extracts the full buffer and
leaves the wrapper disposed (helper). -/
theorem denoResponseString_fresh (data : List Nat) :
    denoResponseString (mkDenoResponse data) =
      (.ok (utf8Decode data), denoResponseDispose (mkDenoResponse data)) := by
  simp [denoResponseString, mkDenoResponse, List.take_length]

/-- `json()` on a fresh Deno response parses the decoded buffer and leaves
the wrapper disposed whatever the parse outcome (helper). -/
theorem denoResponseJson_fresh (parse : String → Option JsonVal)
    (data : List Nat) :
    denoResponseJson parse (mkDenoResponse data) =
      ((match parse (utf8Decode data) with
        | none => .error "SyntaxError"
        | some v => .ok v), denoResponseDispose (mkDenoResponse data)) := by
  cases hp : parse (utf8Decode data) <;>
    simp [denoResponseJson, denoResponseString_fresh, hp]

/-- Every accessor on a disposed Deno response fails with the
disposed-state error and leaves the state untouched (helper). -/
theorem denoResponseRead_disposed (parse : String → Option JsonVal)
    (c : ReadCall) (r : DenoPipelineResponse) (h : r.ptr = none) :
    denoResponseRead parse c r = (.error "Response has been disposed", r) := by
  cases c <;> simp [denoResponseRead, denoResponseBytes, denoResponseString,
    denoResponseJson, h, Except.map]

/-- `string()` on a fresh Java response extracts the full buffer and
leaves the wrapper closed (helper). -/
theorem javaResponseString_fresh (data : List Nat) :
    javaResponseString (mkJavaResponse data) =
      (.ok (utf8Decode data), javaResponseClose (mkJavaResponse data)) := rfl

/-- `json()` on a fresh Java response parses the decoded buffer and leaves
the wrapper closed whatever the parse outcome (helper). -/
theorem javaResponseJson_fresh (parse : String → Option JsonVal)
    (data : List Nat) :
    javaResponseJson parse (mkJavaResponse data) =
      ((match parse (utf8Decode data) with
        | none => .error "Failed to parse JSON response"
        | some v => .ok v), javaResponseClose (mkJavaResponse data)) := by
  cases hp : parse (utf8Decode data) <;>
    simp [javaResponseJson, javaResponseString_fresh, hp]

/-- Every accessor on a closed Java response fails with the disposed-state
error and leaves the state untouched (helper). -/
theorem javaResponseRead_disposed (parse : String → Option JsonVal)
    (c : ReadCall) (r : JavaPipelineResponse) (h : r.disposed = true) :
    javaResponseRead parse c r = (.error "Response has been disposed", r) := by
  cases c <;> simp [javaResponseRead, javaResponseBytes, javaResponseString,
    javaResponseJson, h, Except.map]

/-- Any first accessor on a fresh Deno response leaves it disposed
(helper). -/
theorem denoResponseRead_fresh_state (parse : String → Option JsonVal)
    (c : ReadCall) (data : List Nat) :
    (denoResponseRead parse c (mkDenoResponse data)).2 =
      denoResponseDispose (mkDenoResponse data) := by
  cases c with
  | bytes => rfl
  | text => rfl
  | structured =>
    show (denoResponseJson parse (mkDenoResponse data)).2 = _
    rw [denoResponseJson_fresh]

/-- Any first accessor on a fresh Java response leaves it closed
(helper). -/
theorem javaResponseRead_fresh_state (parse : String → Option JsonVal)
    (c : ReadCall) (data : List Nat) :
    (javaResponseRead parse c (mkJavaResponse data)).2 =
      javaResponseClose (mkJavaResponse data) := by
  cases c with
  | bytes => rfl
  | text => rfl
  | structured =>
    show (javaResponseJson parse (mkJavaResponse data)).2 = _
    rw [javaResponseJson_fresh]

/-- C1: for the response wrappers of the bindings (Deno and Java — the
Swift binding decodes inside `forward` and has no response wrapper), the
first accessor call, whichever of bytes/text/structured it is, extracts
the buffered data and releases the native buffer (exactly one native
drop), and every subsequent accessor call, in any combination, fails with
the disposed-state error, performs no further drop, and returns no data. -/
theorem C1_response_single_read (parse : String → Option JsonVal)
    (data : List Nat) (a b : ReadCall) :
    ((denoResponseRead parse a (mkDenoResponse data)).2.buf = none ∧
      (denoResponseRead parse a (mkDenoResponse data)).2.ptr = none ∧
      (denoResponseRead parse a (mkDenoResponse data)).2.drops = 1) ∧
    (denoResponseRead parse .bytes (mkDenoResponse data)).1 =
      .ok (.bs data) ∧
    (denoResponseRead parse .text (mkDenoResponse data)).1 =
      .ok (.s (utf8Decode data)) ∧
    denoResponseRead parse b
        (denoResponseRead parse a (mkDenoResponse data)).2 =
      (.error "Response has been disposed",
        (denoResponseRead parse a (mkDenoResponse data)).2) ∧
    ((javaResponseRead parse a (mkJavaResponse data)).2.disposed = true ∧
      (javaResponseRead parse a (mkJavaResponse data)).2.slice = none ∧
      (javaResponseRead parse a (mkJavaResponse data)).2.drops = 1) ∧
    (javaResponseRead parse .bytes (mkJavaResponse data)).1 =
      .ok (.bs data) ∧
    (javaResponseRead parse .text (mkJavaResponse data)).1 =
      .ok (.s (utf8Decode data)) ∧
    javaResponseRead parse b
        (javaResponseRead parse a (mkJavaResponse data)).2 =
      (.error "Response has been disposed",
        (javaResponseRead parse a (mkJavaResponse data)).2) := by
  rw [denoResponseRead_fresh_state, javaResponseRead_fresh_state]
  refine ⟨⟨rfl, rfl, rfl⟩, ?_, ?_, ?_, ⟨rfl, rfl, rfl⟩, rfl, rfl, ?_⟩
  · show ((denoResponseBytes (mkDenoResponse data)).1.map ReadValue.bs) = _
    simp [denoResponseBytes, mkDenoResponse, List.take_length, Except.map]
  · show ((denoResponseString (mkDenoResponse data)).1.map ReadValue.s) = _
    rw [denoResponseString_fresh]
    rfl
  · exact denoResponseRead_disposed parse b _ rfl
  · exact javaResponseRead_disposed parse b _ rfl

/-- C2: in every binding, an error-callback invocation with a null message
pointer produces the non-empty generic failure "Unknown error": the Deno
and Java callbacks throw it immediately (and never return success for any
invocation), and the Swift callback captures it so that the failing call
— here `Bundle.fromPath` returning a nil handle after the callback fired
with a null pointer — throws it. -/
theorem C2_null_message_unknown_error :
    denoErrCallback none = .error "Unknown error" ∧
    javaErrorCallbackDefault none = .error "Unknown error" ∧
    (∀ (dec : List Nat → Option String) (c : Option DivvunRuntimeError),
      swiftErrorCallback dec c none = some ⟨"Unknown error"⟩) ∧
    (∀ dec : List Nat → Option String,
      swiftBundleFromPath dec none (some none) =
        .error ⟨"Unknown error"⟩) ∧
    "Unknown error" ≠ "" ∧
    (∀ (m : Option (List Nat)) (u : Unit), denoErrCallback m ≠ .ok u) ∧
    (∀ (m : Option (List Nat)) (u : Unit),
      javaErrorCallbackDefault m ≠ .ok u) := by
  refine ⟨rfl, rfl, fun _ _ => rfl, fun _ => rfl, by decide, ?_, ?_⟩ <;>
    · intro m u hcontra
      cases m <;> simp [denoErrCallback, javaErrorCallbackDefault] at hcontra

/-- C3: for every dispose-bearing binding wrapper holding a native handle
(Deno Bundle, PipelineHandle and PipelineResponse; Java Bundle,
PipelineHandle and PipelineResponse; the Swift wrappers expose no dispose
operation and drop in `deinit` exactly once), disposing clears the local
native-handle reference and performs exactly one native drop, a second
dispose is a no-op (the drop count stays 1), and every operation on a
disposed wrapper fails with an explicit already-disposed error. -/
theorem C3_dispose_idempotent (h : Nat) (data : List Nat)
    (res : Except String Nat) (cres : Except String (Option Nat))
    (fres : Except String (List Nat))
    (parse : String → Option JsonVal) (c : ReadCall) :
    denoBundleDispose (mkDenoBundle h) = { ptr := none, drops := 1 } ∧
    denoBundleDispose (denoBundleDispose (mkDenoBundle h)) =
      denoBundleDispose (mkDenoBundle h) ∧
    denoBundleCreate (denoBundleDispose (mkDenoBundle h)) res =
      .error "Bundle has been disposed" ∧
    denoPipelineDispose (mkDenoPipelineHandle h) =
      { ptr := none, drops := 1 } ∧
    denoPipelineDispose (denoPipelineDispose (mkDenoPipelineHandle h)) =
      denoPipelineDispose (mkDenoPipelineHandle h) ∧
    denoPipelineForward (denoPipelineDispose (mkDenoPipelineHandle h)) fres =
      .error "Pipeline has been disposed" ∧
    denoResponseDispose (mkDenoResponse data) =
      { buf := none, ptr := none, len := 0, drops := 1 } ∧
    denoResponseDispose (denoResponseDispose (mkDenoResponse data)) =
      denoResponseDispose (mkDenoResponse data) ∧
    (denoResponseRead parse c (denoResponseDispose (mkDenoResponse data))).1 =
      .error "Response has been disposed" ∧
    javaBundleClose (mkJavaBundle h) =
      { ptr := none, disposed := true, drops := 1 } ∧
    javaBundleClose (javaBundleClose (mkJavaBundle h)) =
      javaBundleClose (mkJavaBundle h) ∧
    javaBundleCreate (javaBundleClose (mkJavaBundle h)) cres =
      .error "Bundle has been disposed" ∧
    javaPipelineClose (mkJavaPipelineHandle h) =
      { ptr := none, disposed := true, drops := 1 } ∧
    javaPipelineClose (javaPipelineClose (mkJavaPipelineHandle h)) =
      javaPipelineClose (mkJavaPipelineHandle h) ∧
    javaPipelineForward (javaPipelineClose (mkJavaPipelineHandle h)) fres =
      .error "Pipeline has been disposed" ∧
    javaResponseClose (mkJavaResponse data) =
      { slice := none, disposed := true, drops := 1 } ∧
    javaResponseClose (javaResponseClose (mkJavaResponse data)) =
      javaResponseClose (mkJavaResponse data) ∧
    (javaResponseRead parse c (javaResponseClose (mkJavaResponse data))).1 =
      .error "Response has been disposed" := by
  refine ⟨rfl, rfl, rfl, rfl, rfl, rfl, rfl, rfl, ?_, rfl, rfl, rfl, rfl,
    rfl, rfl, rfl, rfl, ?_⟩
  · rw [denoResponseRead_disposed parse c _ rfl]
  · rw [javaResponseRead_disposed parse c _ rfl]
